import Mathlib

/-!
Shallow embedding of `src/exporter/util.py` (edx-analytics-exporter).

Python dictionaries are modelled as association lists with the lookup
semantics of `dict.get` (absent key yields Python `None`, modelled as
`Option.none`).  The retrying shell executor is modelled as a state
transformer over an explicit execution state recording the two output
sinks, the performed sleeps and the number of actual child executions.
-/

namespace ExporterUtil

/-- Lookup in an association list, first match, as for a Python dict
(whose keys are unique). -/
def dictGet {K A : Type} [DecidableEq K] (d : List (K × A)) (k : K) : Option A :=
  (d.find? (fun p => p.fst == k)).map Prod.snd

/-- Python `dict.get` over a dict whose values may themselves be `None`
(`Option V`): an absent key and a key mapped to `None` both yield `none`. -/
def pyGet {K V : Type} [DecidableEq K] (d : List (K × Option V)) (k : K) : Option V :=
  match dictGet d k with
  | some v => v
  | none => none

/-- Key set of a Python dict, modelled as the deduplicated key list. -/
def pyKeys {K A : Type} [DecidableEq K] (d : List (K × A)) : List K :=
  (d.map Prod.fst).dedup

/-- `merge(dict_a, dict_b)` from src/exporter/util.py, lines 29-42:
iterate over `set(dict_a) | set(dict_b)`; for each key take
`dict_a.get(key)` unless it `is None`, else `dict_b.get(key)`. -/
def merge {K V : Type} [DecidableEq K] (dict_a dict_b : List (K × Option V)) :
    List (K × Option V) :=
  ((pyKeys dict_a) ++ (pyKeys dict_b)).dedup.map (fun key =>
    (key, match pyGet dict_a key with
          | none => pyGet dict_b key
          | some v => some v))

/-- Value in the result of `filter_keys`: either an original mapping value
or the empty-dict placeholder `{}` inserted for a requested absent key. -/
inductive FVal (V : Type) where
  | emptyD : FVal V
  | val : V → FVal V
deriving DecidableEq

/-- `filter_keys(mapping, keys)` from src/exporter/util.py, lines 45-59:
if `keys` is truthy, build `{k: \x7b\x7d for k in keys}` and update it with the
entries of `mapping` whose key is in `keys`; otherwise return a copy of
`mapping`.  `keys` is `Option (List K)` so that Python `None` and an empty
collection are both falsy. -/
def filter_keys {K V : Type} [DecidableEq K] (mapping : List (K × V))
    (keys : Option (List K)) : List (K × FVal V) :=
  match keys with
  | some ks =>
    if ks ≠ [] then
      ks.dedup.map (fun k =>
        (k, match dictGet mapping k with
            | some v => FVal.val v
            | none => FVal.emptyD))
    else mapping.map (fun p => (p.fst, FVal.val p.snd))
  | none => mapping.map (fun p => (p.fst, FVal.val p.snd))

/-- One call of the `memoizer` closure from src/exporter/util.py, lines
64-74: `key = str(args) + str(kwargs)`; on a cache miss the wrapped
function is invoked and stored.  `ser` models the string serialization of
the argument tuple; the returned `Nat` counts underlying invocations made
by this call (0 or 1). -/
def memoCall {A R : Type} (obj : A → R) (ser : A → String)
    (cache : List (String × R)) (a : A) : R × List (String × R) × Nat :=
  let key := ser a
  match dictGet cache key with
  | some r => (r, cache, 0)
  | none => (obj a, cache ++ [(key, obj a)], 1)

/-- Run a sequence of calls through the memoizer, threading the cache and
accumulating the number of underlying invocations. -/
def memoRun {A R : Type} (obj : A → R) (ser : A → String) :
    List A → List (String × R) → List R × List (String × R) × Nat
  | [], cache => ([], cache, 0)
  | a :: rest, cache =>
    match memoCall obj ser cache a with
    | (r, cache1, n) =>
      match memoRun obj ser rest cache1 with
      | (rs, cache2, m) => (r :: rs, cache2, n + m)

/-- A caller-supplied output sink (a file object such as a
`SpooledTemporaryFile`): an open/closed flag and the lines written so far. -/
structure Sink where
  isOpen : Bool
  content : List String
deriving DecidableEq

/-- Behaviour of the shell command across executions: for the n-th actual
execution of the child (n = 1, 2, ...), its exit status (`0` = success)
and the lines it writes to standard output and standard error. -/
structure Cmd where
  exit : Nat → Nat
  out : Nat → List String
  err : Nat → List String

/-- Python exceptions that can escape `_retry_execute_shell`:
`CalledProcessError` with the child's exit status, a `KeyError` from a
missing `additional_args` entry, and the `ValueError` raised when a closed
file object is used. -/
inductive PyError where
  | calledProcessError : Nat → PyError
  | keyError : String → PyError
  | valueError : PyError
deriving DecidableEq

/-- Observable state threaded through the executor: the two optional
sinks, the list of performed sleep durations (seconds), and the number of
times the child process was actually run. -/
structure ExecState where
  stdout : Option Sink
  stderr : Option Sink
  sleeps : List Nat
  execs : Nat
deriving DecidableEq

/-- A sink that was supplied and has been closed. -/
def sinkClosed : Option Sink → Bool
  | some s => !s.isOpen
  | none => false

/-- Append the child's output lines to a supplied sink. -/
def writeSink (o : Option Sink) (lines : List String) : Option Sink :=
  match o with
  | some s => some { s with content := s.content ++ lines }
  | none => none

/-- Close a supplied sink (effect of leaving a `with` block on it). -/
def closeSink : Option Sink → Option Sink
  | some s => some { s with isOpen := false }
  | none => none

/-- `subprocess.check_call(cmd, shell=True, **additional_args)` from
src/exporter/util.py, line 157: using a closed file object as a
redirection target raises `ValueError` before the child runs; otherwise
the child executes, writes its output to the supplied sinks and the call
returns `0` on exit status 0 or raises `CalledProcessError` with the
non-zero exit status. -/
def check_call (cmd : Cmd) (s : ExecState) : Except PyError Nat × ExecState :=
  if sinkClosed s.stdout || sinkClosed s.stderr then
    (Except.error PyError.valueError, s)
  else
    let n := s.execs + 1
    let s1 : ExecState := { s with
      execs := n
      stdout := writeSink s.stdout (cmd.out n)
      stderr := writeSink s.stderr (cmd.err n) }
    if cmd.exit n = 0 then (Except.ok 0, s1)
    else (Except.error (PyError.calledProcessError (cmd.exit n)), s1)

/-- The diagnostic block of `_retry_execute_shell` (src/exporter/util.py,
lines 163-173): it subscripts `additional_args` at `stdout` and `stderr`
(raising `KeyError` when the kwarg was not supplied), and reads each sink
inside a `with` statement, which closes the file object on exit; entering
a `with` on an already-closed file raises `ValueError`.  There is no
exception handling around the block, so the returned error, when present,
propagates. -/
def debugDump (s : ExecState) : Option PyError × ExecState :=
  match s.stdout with
  | none => (some (PyError.keyError "stdout"), s)
  | some f =>
    if f.isOpen then
      let s1 : ExecState := { s with stdout := closeSink s.stdout }
      match s1.stderr with
      | none => (some (PyError.keyError "stderr"), s1)
      | some g =>
        if g.isOpen then (none, { s1 with stderr := closeSink s1.stderr })
        else (some PyError.valueError, s1)
    else (some PyError.valueError, s)

/-- `BASE_RETRY_DELAY_IN_SECONDS` (src/exporter/util.py, line 152). -/
def BASE_RETRY_DELAY_IN_SECONDS : Nat := 5

/-- `_retry_execute_shell(cmd, attempt, max_tries, **additional_args)`
from src/exporter/util.py, lines 155-186: run the command; on
`CalledProcessError` dump diagnostics, increment the attempt counter,
sleep `BASE_RETRY_DELAY_IN_SECONDS * 2 ** attempt` seconds, then re-raise
if `attempt >= max_tries` and otherwise recurse.  Any exception other
than `CalledProcessError` propagates. -/
def retry_execute_shell (cmd : Cmd) (attempt : Nat) (max_tries : Int)
    (s : ExecState) : Except PyError Nat × ExecState :=
  match check_call cmd s with
  | (Except.ok r, s1) => (Except.ok r, s1)
  | (Except.error (PyError.calledProcessError c), s1) =>
    match debugDump s1 with
    | (some e, s2) => (Except.error e, s2)
    | (none, s2) =>
      let attempt1 := attempt + 1
      let delay := BASE_RETRY_DELAY_IN_SECONDS * 2 ^ attempt1
      let s3 : ExecState := { s2 with sleeps := s2.sleeps ++ [delay] }
      if (attempt1 : Int) ≥ max_tries then
        (Except.error (PyError.calledProcessError c), s3)
      else
        retry_execute_shell cmd attempt1 max_tries s3
  | (Except.error e, s1) => (Except.error e, s1)
termination_by (max_tries - attempt).toNat
decreasing_by
  simp only [not_le] at *
  omega

/-- Keyword arguments accepted by `execute_shell`. -/
structure Kwargs where
  stdout_file : Option Sink
  stderr_file : Option Sink
  max_tries : Option Int
deriving DecidableEq

/-- `execute_shell(cmd, **kwargs)` from src/exporter/util.py, lines
189-202: forward `stdout_file`/`stderr_file` to the redirection
arguments when supplied, start at attempt 1, default `max_tries` to 1. -/
def execute_shell (cmd : Cmd) (kwargs : Kwargs) : Except PyError Nat × ExecState :=
  retry_execute_shell cmd 1 (kwargs.max_tries.getD 1)
    { stdout := kwargs.stdout_file, stderr := kwargs.stderr_file,
      sleeps := [], execs := 0 }

/-- A freshly created, open, empty sink. -/
def freshSink : Sink := { isOpen := true, content := [] }

/-- A command that fails with exit status 1 on every execution. -/
def alwaysFailCmd : Cmd :=
  ⟨fun _ => 1, fun _ => ["out line"], fun _ => ["err line"]⟩

/-- A command that succeeds on every execution. -/
def alwaysOkCmd : Cmd :=
  ⟨fun _ => 0, fun _ => ["out line"], fun _ => ["err line"]⟩

/-- A command that fails with exit status 7 on its first execution and
would succeed on any later one. -/
def failOnceCmd : Cmd :=
  ⟨fun n => if n = 1 then 7 else 0, fun _ => ["out line"], fun _ => ["err line"]⟩

/-! ### General behaviour lemmas for the executor -/

/-- One failing execution with both sinks supplied and open: the
diagnostic dump closes both sinks and the backoff sleep is recorded; the
call then either re-raises the original `CalledProcessError` (attempt
budget exhausted) or recurses, where `check_call` immediately raises
`ValueError` on the now-closed sinks.  Either way the child ran exactly
once more and the final state is the same. -/
theorem retry_fail_open (cmd : Cmd) (attempt : Nat) (maxT : Int)
    (fc gc : List String) (sl : List Nat) (ex : Nat)
    (h : cmd.exit (ex + 1) ≠ 0) :
    retry_execute_shell cmd attempt maxT ⟨some ⟨true, fc⟩, some ⟨true, gc⟩, sl, ex⟩ =
      (Except.error (if (attempt + 1 : Int) ≥ maxT
          then PyError.calledProcessError (cmd.exit (ex + 1)) else PyError.valueError),
       ⟨some ⟨false, fc ++ cmd.out (ex + 1)⟩, some ⟨false, gc ++ cmd.err (ex + 1)⟩,
        sl ++ [BASE_RETRY_DELAY_IN_SECONDS * 2 ^ (attempt + 1)], ex + 1⟩) := by
  rw [retry_execute_shell]
  by_cases hge : ((attempt : Int) + 1 ≥ maxT)
  · simp [check_call, sinkClosed, writeSink, closeSink, debugDump, h, hge]
  · have hge2 : ¬ ((attempt + 1 : Nat) : Int) ≥ maxT := by push_cast; omega
    simp [check_call, sinkClosed, writeSink, closeSink, debugDump, h, hge, hge2]
    rw [retry_execute_shell]
    simp [check_call, sinkClosed]

/-- `execute_shell` on a command whose first execution fails, with both
sinks supplied and open: exactly one execution happens, one sleep of
`BASE_RETRY_DELAY_IN_SECONDS * 2 ^ 2` seconds is performed, both sinks
end up closed, and the surfaced error is the original failure when
`max_tries ≤ 2` and the closed-sink `ValueError` otherwise. -/
theorem execute_shell_fail_open (cmd : Cmd) (fc gc : List String) (N : Int)
    (h : cmd.exit 1 ≠ 0) :
    execute_shell cmd ⟨some ⟨true, fc⟩, some ⟨true, gc⟩, some N⟩ =
      (Except.error (if (2 : Int) ≥ N then PyError.calledProcessError (cmd.exit 1)
          else PyError.valueError),
       ⟨some ⟨false, fc ++ cmd.out 1⟩, some ⟨false, gc ++ cmd.err 1⟩,
        [BASE_RETRY_DELAY_IN_SECONDS * 2 ^ 2], 1⟩) := by
  have h0 := retry_fail_open cmd 1 N fc gc [] 0 h
  norm_num at h0
  simpa [execute_shell] using h0

/-- `execute_shell` on a command whose first execution succeeds, with
sinks that are absent or open: it returns exit status 0 immediately,
after exactly one execution, with no sleep, the sinks left exactly as the
child wrote them. -/
theorem execute_shell_ok_first (cmd : Cmd) (o e : Option Sink) (mt : Option Int)
    (ho : sinkClosed o = false) (he : sinkClosed e = false) (h : cmd.exit 1 = 0) :
    execute_shell cmd ⟨o, e, mt⟩ =
      (Except.ok 0, ⟨writeSink o (cmd.out 1), writeSink e (cmd.err 1), [], 1⟩) := by
  rw [execute_shell, retry_execute_shell]
  simp [check_call, ho, he, h]

/-- `execute_shell` on a command whose first execution fails when no
`stdout_file` was supplied: the diagnostic dump's `additional_args`
subscript raises `KeyError`, which is surfaced instead of the original
failure; no sleep and no retry happen. -/
theorem execute_shell_fail_noStdout (cmd : Cmd) (e : Option Sink) (mt : Option Int)
    (he : sinkClosed e = false) (h : cmd.exit 1 ≠ 0) :
    execute_shell cmd ⟨none, e, mt⟩ =
      (Except.error (PyError.keyError "stdout"),
       ⟨none, writeSink e (cmd.err 1), [], 1⟩) := by
  rw [execute_shell, retry_execute_shell]
  simp [check_call, debugDump, he, h, show sinkClosed none = false from rfl,
    show writeSink none (cmd.out 1) = none from rfl]

/-! ### General lemmas for the dictionary utilities -/

/-- Lookup in a dict tabulated over a key list. -/
theorem dictGet_tab {K V : Type} [DecidableEq K] (l : List K) (f : K → V) (k : K) :
    dictGet (l.map (fun x => (x, f x))) k = if k ∈ l then some (f k) else none := by
  induction l with
  | nil => simp [dictGet]
  | cons x xs ih =>
    by_cases hx : x = k
    · subst hx
      simp [dictGet, List.find?_cons]
    · have hbx : (x == k) = false := by simp [hx]
      have hk : (k ∈ x :: xs) ↔ (k ∈ xs) := by
        constructor
        · intro hmem
          rcases List.mem_cons.mp hmem with hh | hh
          · exact absurd hh.symm hx
          · exact hh
        · intro hmem
          exact List.mem_cons_of_mem _ hmem
      rw [List.map_cons,
        show dictGet ((x, f x) :: List.map (fun y => (y, f y)) xs) k =
          dictGet (List.map (fun y => (y, f y)) xs) k from by
            simp [dictGet, List.find?_cons, hbx],
        ih, if_congr hk rfl rfl]

/-- Key set of a dict tabulated over a key list. -/
theorem pyKeys_tab {K V : Type} [DecidableEq K] (l : List K) (f : K → V) :
    pyKeys (l.map (fun x => (x, f x))) = l.dedup := by
  rw [pyKeys, List.map_map, show (Prod.fst ∘ fun x => (x, f x)) = @id K from rfl,
    List.map_id]

/-- A key outside the key set of a dict looks up to Python `None`. -/
theorem pyGet_eq_none_of_not_mem {K V : Type} [DecidableEq K]
    (d : List (K × Option V)) (k : K) (hk : k ∉ pyKeys d) : pyGet d k = none := by
  have hfind : d.find? (fun p => p.fst == k) = none := by
    rw [List.find?_eq_none]
    intro p hp hbeq
    exact hk (by
      simp only [pyKeys, List.mem_dedup, List.mem_map]
      exact ⟨p, hp, by simpa using hbeq⟩)
  simp [pyGet, dictGet, hfind]

/-- Unfolding equation for `pyGet`. -/
theorem pyGet_def {K V : Type} [DecidableEq K] (d : List (K × Option V)) (k : K) :
    pyGet d k = match dictGet d k with
                | some v => v
                | none => none := rfl

/-- The key set of `merge dict_a dict_b` is exactly the union of the two
key sets. -/
theorem merge_pyKeys {K V : Type} [DecidableEq K] (a b : List (K × Option V)) (k : K) :
    k ∈ pyKeys (merge a b) ↔ k ∈ pyKeys a ∨ k ∈ pyKeys b := by
  rw [merge, pyKeys_tab]
  simp [List.mem_dedup, List.mem_append]

/-- Value of `merge dict_a dict_b` at any key: `dict_a`'s value unless it
is absent or `None`, in which case `dict_b`'s value. -/
theorem merge_pyGet {K V : Type} [DecidableEq K] (a b : List (K × Option V)) (k : K) :
    pyGet (merge a b) k = (pyGet a k).or (pyGet b k) := by
  by_cases hk : k ∈ ((pyKeys a) ++ (pyKeys b)).dedup
  · rw [merge, pyGet_def, dictGet_tab, if_pos hk]
    cases hpa : pyGet a k <;> simp [hpa, Option.or]
  · have hka : k ∉ pyKeys a := fun hmem => hk (by simp [List.mem_dedup, List.mem_append, hmem])
    have hkb : k ∉ pyKeys b := fun hmem => hk (by simp [List.mem_dedup, List.mem_append, hmem])
    have hkm : k ∉ pyKeys (merge a b) := by
      rw [merge, pyKeys_tab]
      simpa [List.mem_dedup] using hk
    rw [pyGet_eq_none_of_not_mem a k hka, pyGet_eq_none_of_not_mem b k hkb,
      pyGet_eq_none_of_not_mem _ k hkm]
    rfl

/-- Key set of `filter_keys mapping keys` for a truthy `keys`. -/
theorem filter_keys_pyKeys {K V : Type} [DecidableEq K] (mapping : List (K × V))
    (x : K) (ks : List K) (k : K) :
    k ∈ pyKeys (filter_keys mapping (some (x :: ks))) ↔ k ∈ x :: ks := by
  rw [filter_keys]
  simp only [ne_eq, List.cons_ne_nil, not_false_iff, if_true, reduceCtorEq, ite_not]
  rw [pyKeys_tab]
  simp [List.mem_dedup]

/-- Value of `filter_keys mapping keys` for a truthy `keys`: requested
keys found in `mapping` keep their value, requested keys absent from
`mapping` get the empty placeholder, and no other key is present. -/
theorem filter_keys_dictGet {K V : Type} [DecidableEq K] (mapping : List (K × V))
    (x : K) (ks : List K) (k : K) :
    dictGet (filter_keys mapping (some (x :: ks))) k =
      if k ∈ x :: ks then
        some (match dictGet mapping k with
              | some v => FVal.val v
              | none => FVal.emptyD)
      else none := by
  rw [filter_keys]
  simp only [ne_eq, List.cons_ne_nil, not_false_iff, if_true, reduceCtorEq, ite_not]
  rw [dictGet_tab, if_congr List.mem_dedup rfl rfl]

/-- Lookup in the value-embedded copy of a mapping. -/
theorem dictGet_map_val {K V : Type} [DecidableEq K] (mapping : List (K × V)) (k : K) :
    dictGet (mapping.map (fun p => (p.fst, FVal.val p.snd))) k =
      (dictGet mapping k).map FVal.val := by
  induction mapping with
  | nil => simp [dictGet]
  | cons p ps ih =>
    by_cases hp : p.fst = k
    · simp [dictGet, List.find?_cons, hp]
    · have hbp : (p.fst == k) = false := by simp [hp]
      simpa [dictGet, List.find?_cons, hbp] using ih

/-- Key set of the value-embedded copy of a mapping. -/
theorem pyKeys_map_val {K V : Type} [DecidableEq K] (mapping : List (K × V)) :
    pyKeys (mapping.map (fun p => (p.fst, FVal.val p.snd))) = pyKeys mapping := by
  rw [pyKeys, List.map_map,
    show (Prod.fst ∘ fun p : K × V => (p.fst, FVal.val p.snd)) = Prod.fst from rfl]
  rfl

/-- Two memoized calls with the same argument: the second is served from
the cache, so the wrapped function runs exactly once. -/
theorem memoRun_same {A R : Type} (obj : A → R) (ser : A → String) (a : A) :
    memoRun obj ser [a, a] [] = ([obj a, obj a], [(ser a, obj a)], 1) := by
  simp [memoRun, memoCall, dictGet, List.find?_cons]

/-- Two memoized calls whose arguments serialize differently: each gets
its own cache entry and its own underlying invocation. -/
theorem memoRun_distinct {A R : Type} (obj : A → R) (ser : A → String) (a b : A)
    (h : ser a ≠ ser b) :
    memoRun obj ser [a, b] [] = ([obj a, obj b], [(ser a, obj a), (ser b, obj b)], 2) := by
  have hb : (ser a == ser b) = false := by simp [h]
  simp [memoRun, memoCall, dictGet, List.find?_cons, hb]

/-! ### Claim theorems -/

/-- C1: the claim states that for an always-failing command and any
`max_tries = N ≥ 1`, `execute_shell` performs exactly N execution
attempts before raising.  In fact the code performs exactly one execution
attempt: at `max_tries = 2` the post-increment `attempt >= max_tries`
check re-raises after the single execution, and at `max_tries = 3` the
retry aborts with `ValueError` because the diagnostic dump closed the
sinks — in both cases the child ran once, not N times. -/
theorem C1_always_fail_single_attempt :
    (execute_shell alwaysFailCmd ⟨some freshSink, some freshSink, some 2⟩).2.execs = 1 ∧
    (execute_shell alwaysFailCmd ⟨some freshSink, some freshSink, some 2⟩).1 =
      Except.error (PyError.calledProcessError 1) ∧
    (execute_shell alwaysFailCmd ⟨some freshSink, some freshSink, some 3⟩).2.execs = 1 ∧
    (execute_shell alwaysFailCmd ⟨some freshSink, some freshSink, some 3⟩).1 =
      Except.error PyError.valueError := by
  have h2 := execute_shell_fail_open alwaysFailCmd [] [] 2 (by decide)
  have h3 := execute_shell_fail_open alwaysFailCmd [] [] 3 (by decide)
  norm_num at h2 h3
  rw [show (freshSink : Sink) = ⟨true, []⟩ from rfl, h2, h3]
  simp [alwaysFailCmd]

/-- C2: the claim states that a command failing exactly once and then
succeeding returns success after 2 attempts whenever `max_tries > 1`.
In fact with sinks supplied the successful retry never happens: at
`max_tries = 3` the second attempt raises `ValueError` on the closed
sinks before executing, and at `max_tries = 2` the original failure is
re-raised after the first attempt; either way the child ran exactly
once and no success is returned. -/
theorem C2_fail_then_succeed_never_succeeds :
    (execute_shell failOnceCmd ⟨some freshSink, some freshSink, some 3⟩).1 =
      Except.error PyError.valueError ∧
    (execute_shell failOnceCmd ⟨some freshSink, some freshSink, some 3⟩).2.execs = 1 ∧
    (execute_shell failOnceCmd ⟨some freshSink, some freshSink, some 2⟩).1 =
      Except.error (PyError.calledProcessError 7) ∧
    (execute_shell failOnceCmd ⟨some freshSink, some freshSink, some 2⟩).2.execs = 1 := by
  have h3 := execute_shell_fail_open failOnceCmd [] [] 3 (by decide)
  have h2 := execute_shell_fail_open failOnceCmd [] [] 2 (by decide)
  norm_num at h2 h3
  rw [show (freshSink : Sink) = ⟨true, []⟩ from rfl, h2, h3]
  simp [failOnceCmd]

/-- C3 counterexample: the claim states that `execute_shell` with
`max_tries < 1` fails fast with a precondition error before executing the
command.  At `max_tries = 0` with a succeeding command, the command is
executed (once) and the call returns success — no precondition error is
raised and execution is not prevented. -/
theorem C3_counterexample_no_fail_fast :
    (execute_shell alwaysOkCmd ⟨some freshSink, some freshSink, some 0⟩).1 = Except.ok 0 ∧
    (execute_shell alwaysOkCmd ⟨some freshSink, some freshSink, some 0⟩).2.execs = 1 := by
  have h := execute_shell_ok_first alwaysOkCmd (some freshSink) (some freshSink) (some 0)
    rfl rfl (by decide)
  rw [h]
  simp

/-- C3 amended: `execute_shell` performs no validation of `max_tries`:
with `max_tries < 1` (and open sinks supplied) it executes the command
exactly once, returns success if that execution succeeds, and raises the
original failure after the single attempt otherwise. -/
theorem C3_no_validation_executes_once (cmd : Cmd) (N : Int) (fc gc : List String)
    (hN : N < 1) :
    (execute_shell cmd ⟨some ⟨true, fc⟩, some ⟨true, gc⟩, some N⟩).2.execs = 1 ∧
    (execute_shell cmd ⟨some ⟨true, fc⟩, some ⟨true, gc⟩, some N⟩).1 =
      (if cmd.exit 1 = 0 then Except.ok 0
       else Except.error (PyError.calledProcessError (cmd.exit 1))) := by
  by_cases hc : cmd.exit 1 = 0
  · rw [execute_shell_ok_first cmd (some ⟨true, fc⟩) (some ⟨true, gc⟩) (some N) rfl rfl hc]
    simp [hc]
  · rw [execute_shell_fail_open cmd fc gc N hc]
    have : (2 : Int) ≥ N := by omega
    simp [hc, this]

/-- C3 witness: the amended statement at `max_tries = 0` with the
always-succeeding command. -/
theorem C3_no_validation_executes_once_witness :
    ((0 : Int) < 1) ∧
    ((execute_shell alwaysOkCmd ⟨some ⟨true, []⟩, some ⟨true, []⟩, some 0⟩).2.execs = 1 ∧
     (execute_shell alwaysOkCmd ⟨some ⟨true, []⟩, some ⟨true, []⟩, some 0⟩).1 =
       (if alwaysOkCmd.exit 1 = 0 then Except.ok 0
        else Except.error (PyError.calledProcessError (alwaysOkCmd.exit 1)))) :=
  ⟨by decide, C3_no_validation_executes_once alwaysOkCmd 0 [] [] (by decide)⟩

/-- C4: the claim states that failures while reading the captured output
for diagnostics are swallowed and never mask the original command
failure.  When no stdout sink was supplied, the failed attempt's
diagnostic dump raises `KeyError` at the `additional_args` subscript:
the surfaced error is the `KeyError`, not the original
`CalledProcessError`, and no backoff sleep or retry happens. -/
theorem C4_missing_sink_masks_original :
    (execute_shell alwaysFailCmd ⟨none, none, some 1⟩).1 =
      Except.error (PyError.keyError "stdout") ∧
    (execute_shell alwaysFailCmd ⟨none, none, some 1⟩).1 ≠
      Except.error (PyError.calledProcessError 1) ∧
    (execute_shell alwaysFailCmd ⟨none, none, some 1⟩).2.sleeps = [] := by
  rw [execute_shell_fail_noStdout alwaysFailCmd none (some 1) rfl (by decide)]
  simp

/-- C5: when the attempt budget is exhausted (with both sinks supplied
and open — the only runs on which the exhaustion re-raise is reachable,
which requires `max_tries ≤ 2`), the error surfaced to the caller is the
original `CalledProcessError` carrying the child's exit status from the
last executed attempt, not a synthetic wrapper. -/
theorem C5_exhaustion_surfaces_original_failure (cmd : Cmd) (fc gc : List String)
    (N : Int) (hfail : ∀ n, cmd.exit n ≠ 0) (hN : N ≤ 2) :
    (execute_shell cmd ⟨some ⟨true, fc⟩, some ⟨true, gc⟩, some N⟩).1 =
      Except.error (PyError.calledProcessError (cmd.exit 1)) := by
  rw [execute_shell_fail_open cmd fc gc N (hfail 1)]
  simp [show (2 : Int) ≥ N from by omega]

/-- C5 witness: exhaustion at `max_tries = 1` surfaces the original
failure with exit status 1. -/
theorem C5_exhaustion_surfaces_original_failure_witness :
    ((∀ n, alwaysFailCmd.exit n ≠ 0) ∧ (1 : Int) ≤ 2) ∧
    (execute_shell alwaysFailCmd ⟨some ⟨true, []⟩, some ⟨true, []⟩, some 1⟩).1 =
      Except.error (PyError.calledProcessError (alwaysFailCmd.exit 1)) :=
  ⟨⟨fun _ => one_ne_zero, by decide⟩,
   C5_exhaustion_surfaces_original_failure alwaysFailCmd [] [] 1 (fun _ => one_ne_zero)
     (by decide)⟩

/-- C6: the claim states that the caller-supplied sinks are left open and
usable after every attempt, including failed ones.  After a single failed
attempt at `max_tries = 1`, both sinks end up closed (`isOpen = false`):
the diagnostic dump's `with` blocks closed the caller's file objects. -/
theorem C6_failed_attempt_closes_sinks :
    (execute_shell alwaysFailCmd ⟨some freshSink, some freshSink, some 1⟩).2.stdout =
      some ⟨false, ["out line"]⟩ ∧
    (execute_shell alwaysFailCmd ⟨some freshSink, some freshSink, some 1⟩).2.stderr =
      some ⟨false, ["err line"]⟩ := by
  have h := execute_shell_fail_open alwaysFailCmd [] [] 1 (by decide)
  rw [show (freshSink : Sink) = ⟨true, []⟩ from rfl, h]
  simp [alwaysFailCmd]

/-- C7: for all dicts `a` and `b`, the key set of `merge a b` is exactly
the union of the key sets, and every key maps to `a`'s value unless that
value is absent or `None`, in which case it maps to `b`'s value;
with the spec's concrete examples. -/
theorem C7_merge_union_precedence :
    (∀ (K V : Type) [DecidableEq K] (a b : List (K × Option V)) (k : K),
        (k ∈ pyKeys (merge a b) ↔ k ∈ pyKeys a ∨ k ∈ pyKeys b) ∧
        pyGet (merge a b) k = (pyGet a k).or (pyGet b k)) ∧
    merge [(1, some 1)] [(1, some 2), (2, some 3)] = [(1, some 1), (2, some 3)] ∧
    merge [(1, (none : Option Nat))] [(1, some 2)] = [(1, some 2)] := by
  refine ⟨?_, by decide, by decide⟩
  intro K V _inst a b k
  exact ⟨merge_pyKeys a b k, merge_pyGet a b k⟩

/-- C8: for a non-empty key collection, `filter_keys` returns a mapping
whose key set is exactly the requested keys, where present keys keep
their value and absent keys get the empty placeholder; for `None` or an
empty collection it returns a full copy of the mapping; with the spec's
concrete example. -/
theorem C8_filter_keys_restrict_placeholder_copy :
    (∀ (K V : Type) [DecidableEq K] (mapping : List (K × V)) (x : K)
        (ks : List K) (k : K),
        (k ∈ pyKeys (filter_keys mapping (some (x :: ks))) ↔ k ∈ x :: ks) ∧
        dictGet (filter_keys mapping (some (x :: ks))) k =
          (if k ∈ x :: ks then
             some (match dictGet mapping k with
                   | some v => FVal.val v
                   | none => FVal.emptyD)
           else none)) ∧
    (∀ (K V : Type) [DecidableEq K] (mapping : List (K × V)) (k : K),
        pyKeys (filter_keys mapping none) = pyKeys mapping ∧
        dictGet (filter_keys mapping none) k = (dictGet mapping k).map FVal.val) ∧
    (∀ (K V : Type) [DecidableEq K] (mapping : List (K × V)) (k : K),
        pyKeys (filter_keys mapping (some ([] : List K))) = pyKeys mapping ∧
        dictGet (filter_keys mapping (some ([] : List K))) k =
          (dictGet mapping k).map FVal.val) ∧
    filter_keys [(1, 10), (2, 20)] (some [1, 3]) = [(1, FVal.val 10), (3, FVal.emptyD)] := by
  refine ⟨?_, ?_, ?_, by decide⟩
  · intro K V _inst mapping x ks k
    exact ⟨filter_keys_pyKeys mapping x ks k, filter_keys_dictGet mapping x ks k⟩
  · intro K V _inst mapping k
    rw [filter_keys]
    exact ⟨pyKeys_map_val mapping, dictGet_map_val mapping k⟩
  · intro K V _inst mapping k
    rw [filter_keys]
    rw [if_neg (show ¬(([] : List K) ≠ []) from by simp)]
    exact ⟨pyKeys_map_val mapping, dictGet_map_val mapping k⟩

/-- C9: calling the memoized wrapper twice with identical arguments
invokes the underlying function exactly once and serves the cached result
the second time; two calls whose arguments serialize differently get
independent cache entries, each with its own underlying invocation. -/
theorem C9_memoize_single_invocation_independent_entries
    (A R : Type) (obj : A → R) (ser : A → String) (a b : A) :
    memoRun obj ser [a, a] [] = ([obj a, obj a], [(ser a, obj a)], 1) ∧
    (ser a ≠ ser b →
      memoRun obj ser [a, b] [] = ([obj a, obj b], [(ser a, obj a), (ser b, obj b)], 2)) :=
  ⟨memoRun_same obj ser a, fun h => memoRun_distinct obj ser a b h⟩

/-- C9 witness: the identity function memoized over arguments 1 and 2,
whose serializations differ. -/
theorem C9_memoize_witness :
    (toString (1 : Nat) ≠ toString (2 : Nat)) ∧
    memoRun (fun n : Nat => n) (fun n : Nat => toString n) [1, 1] [] =
      ([1, 1], [("1", 1)], 1) ∧
    memoRun (fun n : Nat => n) (fun n : Nat => toString n) [1, 2] [] =
      ([1, 2], [("1", 1), ("2", 2)], 2) :=
  ⟨by decide,
   (C9_memoize_single_invocation_independent_entries Nat Nat (fun n => n)
      (fun n => toString n) 1 2).1,
   (C9_memoize_single_invocation_independent_entries Nat Nat (fun n => n)
      (fun n => toString n) 1 2).2 (by decide)⟩

/-- C10: every failed attempt — including the final one whose failure is
propagated — performs the full backoff sleep of
`BASE_RETRY_DELAY_IN_SECONDS * 2 ^ (attempt + 1)` seconds before control
proceeds: when the incremented counter exhausts the budget,
`_retry_execute_shell` records that sleep and only then re-raises. -/
theorem C10_final_failed_attempt_sleeps_before_raise (cmd : Cmd) (attempt : Nat)
    (maxT : Int) (fc gc : List String) (sl : List Nat) (ex : Nat)
    (h : cmd.exit (ex + 1) ≠ 0) (hex : (attempt + 1 : Int) ≥ maxT) :
    retry_execute_shell cmd attempt maxT ⟨some ⟨true, fc⟩, some ⟨true, gc⟩, sl, ex⟩ =
      (Except.error (PyError.calledProcessError (cmd.exit (ex + 1))),
       ⟨some ⟨false, fc ++ cmd.out (ex + 1)⟩, some ⟨false, gc ++ cmd.err (ex + 1)⟩,
        sl ++ [BASE_RETRY_DELAY_IN_SECONDS * 2 ^ (attempt + 1)], ex + 1⟩) := by
  rw [retry_fail_open cmd attempt maxT fc gc sl ex h, if_pos hex]

/-- C10 witness: a terminal failure at attempt 4 of 5 still sleeps
`5 * 2 ^ 5 = 160` seconds before the re-raise. -/
theorem C10_final_failed_attempt_sleeps_before_raise_witness :
    (alwaysFailCmd.exit 3 ≠ 0 ∧ (4 + 1 : Int) ≥ 5) ∧
    retry_execute_shell alwaysFailCmd 4 5 ⟨some ⟨true, ["a"]⟩, some ⟨true, []⟩, [7], 2⟩ =
      (Except.error (PyError.calledProcessError (alwaysFailCmd.exit 3)),
       ⟨some ⟨false, ["a"] ++ alwaysFailCmd.out 3⟩, some ⟨false, [] ++ alwaysFailCmd.err 3⟩,
        [7] ++ [BASE_RETRY_DELAY_IN_SECONDS * 2 ^ (4 + 1)], 2 + 1⟩) :=
  ⟨⟨by decide, by decide⟩,
   C10_final_failed_attempt_sleeps_before_raise alwaysFailCmd 4 5 ["a"] [] [7] 2
     (by decide) (by decide)⟩

end ExporterUtil
